import Mathlib

/-!
Shallow embedding of the core pipeline of the `chumcred-stratiq` repository
(scoring → benchmarking → SWOT → recommendations → report assembly).

Conventions of the embedding:
* Python dynamic values are modelled by the inductive type `Py`
  (`None`, numbers, strings, lists, dicts with string keys).
  Python floats are modelled as exact rationals `ℚ`; `float` parsing of
  numeric strings is not modelled (all numeric data in this pipeline is
  produced as numbers, never as numeric strings), and `NaN`/`inf` have no
  representative in `ℚ` (the source maps them to the default anyway).
* Python dicts are association lists in insertion order; assignment to an
  existing key updates in place, a new key is appended (CPython semantics).
* `round(x, 2)` is modelled as exact round-half-to-even on `ℚ`
  (binary floating-point representation error is not modelled).
* Configuration that the source loads from files or module globals
  (KPI definitions, pillar weights, the benchmark store, the database rows)
  is passed as explicit parameters.
-/

-- The arithmetic of `ℚ` is used in every embedded function; its core
-- operations are `@[irreducible]` by default, which would keep concrete
-- witnesses from evaluating, so they are unsealed for this development.
unseal Rat.inv Rat.mul Rat.add Rat.sub

/-- Model of a dynamic Python value as it occurs in this pipeline. -/
inductive Py where
  | none : Py
  | num : ℚ → Py
  | str : String → Py
  | list : List Py → Py
  | dict : List (String × Py) → Py

/-- Python truthiness (`bool(x)`) for the shapes in `Py`. -/
def pyTruthy : Py → Bool
  | Py.none => false
  | Py.num q => q ≠ 0
  | Py.str s => s ≠ ""
  | Py.list xs => ¬ xs.isEmpty
  | Py.dict kvs => ¬ kvs.isEmpty

/-- Python `str(x)`.  Only the `str` branch is ever exercised by the
theorems below; the renderings of the other shapes are placeholders. -/
def pyStr : Py → String
  | Py.none => "None"
  | Py.num q => toString q
  | Py.str s => s
  | Py.list _ => "<list>"
  | Py.dict _ => "<dict>"

/-- Python `a or b` (returns `a` when truthy, else `b`). -/
def pyOr (a b : Py) : Py := if pyTruthy a then a else b

/-- `d.get(k)` without default: the stored value, or `Option.none` if the
key is absent. -/
def rowGet (kvs : List (String × Py)) (k : String) : Option Py :=
  (kvs.find? (fun kv => kv.1 == k)).map (·.2)

/-- `d.get(k, default)`: the stored value (even when it is `None`),
or `default` if the key is absent. -/
def rowGetD (kvs : List (String × Py)) (k : String) (d : Py) : Py :=
  (rowGet kvs k).getD d

/-- `d.get(k)` as Python sees it: absent keys give `None`. -/
def pyGetN (kvs : List (String × Py)) (k : String) : Py :=
  rowGetD kvs k Py.none

/-- Leading- and trailing-whitespace removal (Python `str.strip()`),
computed on the character list so that concrete lookups evaluate. -/
def trimChars (l : List Char) : List Char :=
  ((l.dropWhile Char.isWhitespace).reverse.dropWhile Char.isWhitespace).reverse

/-- `core.benchmarking._norm` on a string argument: `str(s).strip().lower()`. -/
def normStr (s : String) : String :=
  String.mk ((trimChars s.data).map Char.toLower)

/-- `core.benchmarking._norm`: `""` for `None`, else `str(s).strip().lower()`. -/
def pyNorm : Py → String
  | Py.none => ""
  | v => normStr (pyStr v)

/-- `core.benchmarking._safe_float`: numbers pass through, everything that
`float()` would reject (or `None`) becomes the default. -/
def safeFloat (x : Py) (default : ℚ) : ℚ :=
  match x with
  | Py.num q => q
  | _ => default

/-- `float(x)` under try/except as used in `core/swot_engine.py`:
`some` of the number, `Option.none` when the conversion raises. -/
def pyFloat : Py → Option ℚ
  | Py.num q => some q
  | _ => Option.none

/-- Python 3 `round` to an integer: round half to even. -/
def roundHalfEven (q : ℚ) : ℤ :=
  let n := ⌊q⌋
  let r := q - n
  if r < 1/2 then n
  else if 1/2 < r then n + 1
  else if n % 2 = 0 then n else n + 1

/-- Python `round(x, 2)` on exact rationals. -/
def round2 (q : ℚ) : ℚ := (roundHalfEven (q * 100) : ℚ) / 100

-- ==========================================================
-- core/scoring_engine.py
-- ==========================================================

/-- One entry of a KPI's `scoring_rules` list: `{min, max, score}` with
nullable bounds. -/
structure Rule where
  min : Option ℚ
  max : Option ℚ
  score : ℚ
deriving Repr, DecidableEq

/-- The matching test of one loop iteration of `score_value`:
`(mn is None or value >= mn) and (mx is None or value <= mx)`. -/
def ruleMatches (value : ℚ) (r : Rule) : Bool :=
  (match r.min with
   | Option.none => true
   | some mn => decide (mn ≤ value)) &&
  (match r.max with
   | Option.none => true
   | some mx => decide (value ≤ mx))

/-- `core.scoring_engine.score_value`: first matching rule's score, else 0. -/
def score_value (value : ℚ) : List Rule → ℚ
  | [] => 0
  | r :: rs => if ruleMatches value r then r.score else score_value value rs

/-- One KPI definition as used by `compute_scores`:
pillar assignment and scoring rules. -/
structure KpiCfg where
  pillar : String
  scoring_rules : List Rule
deriving Repr, DecidableEq

/-- One element of the `results` list built by `compute_scores`
(`{"kpi_id":…, "value":…, "score":…, "pillar":…}`). -/
structure ScoreRec where
  kpi_id : String
  value : ℚ
  score : ℚ
  pillar : String
deriving Repr, DecidableEq

/-- Association-list read with default (`d.get(k, default)` on a
string-keyed dict of numbers). -/
def alistGetD (m : List (String × ℚ)) (k : String) (d : ℚ) : ℚ :=
  ((m.find? (fun kv => kv.1 == k)).map (·.2)).getD d

/-- Association-list write (`d[k] = v`): update in place when the key
exists, append otherwise (CPython dict insertion-order semantics). -/
def alistInsert (m : List (String × ℚ)) (k : String) (v : ℚ) :
    List (String × ℚ) :=
  if m.any (fun kv => kv.1 == k) then
    m.map (fun kv => if kv.1 == k then (k, v) else kv)
  else m ++ [(k, v)]

/-- The mutable state of the main loop of `compute_scores`:
`results`, `pillar_totals`, `pillar_counts`. -/
structure ScoresState where
  results : List ScoreRec
  totals : List (String × ℚ)
  counts : List (String × ℚ)

/-- One iteration of the `for kpi_id, value in kpi_inputs.items()` loop of
`compute_scores`: unknown KPI ids are skipped, otherwise the value is
scored and the pillar accumulators are updated. -/
def scoresStep (kpis : List (String × KpiCfg)) (st : ScoresState)
    (kv : String × ℚ) : ScoresState :=
  match (kpis.find? (fun e => e.1 == kv.1)).map (·.2) with
  | Option.none => st
  | some cfg =>
    let sc := score_value kv.2 cfg.scoring_rules
    { results := st.results ++ [⟨kv.1, kv.2, sc, cfg.pillar⟩]
      totals := alistInsert st.totals cfg.pillar
        (alistGetD st.totals cfg.pillar 0 + sc)
      counts := alistInsert st.counts cfg.pillar
        (alistGetD st.counts cfg.pillar 0 + 1) }

/-- `core.scoring_engine.compute_scores`, with the configuration that the
source loads via `load_kpis()` / `load_pillar_weights()` passed as the
parameters `kpis` and `pillar_weights`.  Returns
`(results, pillar_scores, bhi)`. -/
def compute_scores (kpis : List (String × KpiCfg))
    (pillar_weights : List (String × ℚ))
    (kpi_inputs : List (String × ℚ)) :
    List ScoreRec × List (String × ℚ) × ℚ :=
  let st := kpi_inputs.foldl (scoresStep kpis) ⟨[], [], []⟩
  let pillar_scores := st.totals.map
    (fun pt => (pt.1, round2 (pt.2 / alistGetD st.counts pt.1 0)))
  let bhi := pillar_scores.foldl
    (fun acc pa => acc + pa.2 * alistGetD pillar_weights pa.1 0) 0
  (st.results, pillar_scores, round2 bhi)

-- ==========================================================
-- core/benchmarking.py
-- ==========================================================

/-- The normalized reference dict built by `core.benchmarking._get_ref`:
`median` always present, `p25`/`p75` only when resolvable. -/
structure Ref where
  median : ℚ
  p25 : Option ℚ
  p75 : Option ℚ
deriving Repr, DecidableEq

/-- `core.benchmarking._get_ref`: a bare number becomes `{median: n}`;
a dict is probed for `median` (else `p50`/`avg`/`mean`), `p25`
(else `q1`/`lower`) and `p75` (else `q3`/`upper`); anything else
defaults to `{median: 0.0}`. -/
def getRef (refObj : Py) : Ref :=
  match refObj with
  | Py.num q => ⟨safeFloat (Py.num q) 0, Option.none, Option.none⟩
  | Py.dict kvs =>
    let median :=
      if (rowGet kvs "median").isSome then pyGetN kvs "median"
      else rowGetD kvs "p50" (rowGetD kvs "avg" (rowGetD kvs "mean" (Py.num 0)))
    let p25 := rowGetD kvs "p25" (rowGetD kvs "q1" (rowGetD kvs "lower" Py.none))
    let p75 := rowGetD kvs "p75" (rowGetD kvs "q3" (rowGetD kvs "upper" Py.none))
    ⟨safeFloat median 0,
     match p25 with
     | Py.none => Option.none
     | v => some (safeFloat v 0),
     match p75 with
     | Py.none => Option.none
     | v => some (safeFloat v 0)⟩
  | _ => ⟨0, Option.none, Option.none⟩

/-- `core.benchmarking._resolve_benchmarks_for_industry`, with the module
global `BENCHMARKS` (possibly `None`) passed as parameter `B`.  A dict
store is matched case-insensitively on its industry keys; a list store is
filtered on its rows' `industry` field, with `rows or None` collapsing an
empty filter result to `None`. -/
def resolveBench (B : Py) (industry : String) : Option Py :=
  match B with
  | Py.dict kvs =>
    (kvs.find? (fun kv => normStr kv.1 == normStr industry)).map (·.2)
  | Py.list xs =>
    let rows := xs.filter (fun row =>
      match row with
      | Py.dict kvs => pyNorm (pyGetN kvs "industry") == normStr industry
      | _ => false)
    if rows.isEmpty then Option.none else some (Py.list rows)
  | _ => Option.none

/-- The inner case-insensitive benchmark-key search of `compare_to_benchmark`
case A: `for bk, bv in bench.items(): if _norm(bk) == _norm(kpi_id): …`. -/
def findCI (bkvs : List (String × Py)) (kpiId : String) : Option Py :=
  (bkvs.find? (fun bkv => normStr bkv.1 == normStr kpiId)).map (·.2)

/-- The score-normalization block of `compare_to_benchmark`: reduce the
`scores` argument (dict, or list of dicts / 2+-tuples) to
`score_map : {kpi_id: float}`. -/
def scoreMapOf (scores : Py) : List (String × ℚ) :=
  match scores with
  | Py.dict kvs =>
    kvs.foldl (fun m kv => alistInsert m kv.1 (safeFloat kv.2 0)) []
  | Py.list items =>
    items.foldl (fun m item =>
      match item with
      | Py.dict kvs =>
        let kpiId := pyOr (pyOr (pyGetN kvs "kpi_id") (pyGetN kvs "id"))
          (pyGetN kvs "kpi")
        let val := rowGetD kvs "value"
          (rowGetD kvs "val" (rowGetD kvs "score" (Py.num 0)))
        if pyTruthy kpiId then alistInsert m (pyStr kpiId) (safeFloat val 0)
        else m
      | Py.list xs =>
        if 2 ≤ xs.length then
          alistInsert m (pyStr (xs.getD 0 Py.none)) (safeFloat (xs.getD 1 Py.none) 0)
        else m
      | _ => m) []
  | _ => []

/-- The result row `compare_to_benchmark` appends for one matched KPI:
the dict literal with keys `kpi_id`, `your_value`, `benchmark_median`,
`gap_vs_median`, `benchmark_p25`, `benchmark_p75` (the last two `None`
when the reference has no such percentile). -/
def mkRow (kpiId : String) (yourVal : ℚ) (ref : Ref) : List (String × Py) :=
  [("kpi_id", Py.str kpiId),
   ("your_value", Py.num (round2 yourVal)),
   ("benchmark_median", Py.num (round2 ref.median)),
   ("gap_vs_median", Py.num (round2 (yourVal - ref.median))),
   ("benchmark_p25",
     match ref.p25 with
     | some v => Py.num (round2 v)
     | Option.none => Py.none),
   ("benchmark_p75",
     match ref.p75 with
     | some v => Py.num (round2 v)
     | Option.none => Py.none)]

/-- One iteration of the case-A loop of `compare_to_benchmark`
(`for kpi_id, your_val in score_map.items()`): skip KPIs without a
case-insensitive benchmark key, otherwise append the result row. -/
def caseAStep (bkvs : List (String × Py)) (acc : List (List (String × Py)))
    (kv : String × ℚ) : List (List (String × Py)) :=
  match findCI bkvs kv.1 with
  | Option.none => acc
  | some refObj => acc ++ [mkRow kv.1 kv.2 (getRef refObj)]

/-- One iteration of the case-B loop of `compare_to_benchmark`
(`for row in bench`): non-dict rows, rows without a truthy KPI id, and
KPIs the user did not report are skipped. -/
def caseBStep (scoreMap : List (String × ℚ)) (acc : List (List (String × Py)))
    (row : Py) : List (List (String × Py)) :=
  match row with
  | Py.dict kvs =>
    let kpiId := pyOr (pyOr (pyGetN kvs "kpi_id") (pyGetN kvs "kpi"))
      (pyGetN kvs "id")
    if ¬ pyTruthy kpiId then acc
    else
      match (scoreMap.find? (fun e => e.1 == pyStr kpiId)).map (·.2) with
      | Option.none => acc
      | some yourVal => acc ++ [mkRow (pyStr kpiId) yourVal (getRef (Py.dict kvs))]
  | _ => acc

/-- `core.benchmarking.compare_to_benchmark`, with the module global
`BENCHMARKS` passed as parameter `B`.  Case A: the resolved reference is a
dict keyed by KPI id; case B: it is a list of row dicts. -/
def compare_to_benchmark (B : Py) (scores : Py) (industry : String) :
    List (List (String × Py)) :=
  match resolveBench B industry with
  | Option.none => []
  | some bench =>
    if ¬ pyTruthy bench then [] else
    let scoreMap := scoreMapOf scores
    match bench with
    | Py.dict bkvs => scoreMap.foldl (caseAStep bkvs) []
    | Py.list rows => rows.foldl (caseBStep scoreMap) []
    | _ => []

-- ==========================================================
-- core/swot_engine.py
-- ==========================================================

/-- The SWOT dict returned by `generate_swot`. -/
structure Swot where
  Strengths : List String
  Weaknesses : List String
  Opportunities : List String
  Threats : List String
deriving Repr, DecidableEq

/-- `core.swot_engine._extract_score_item`: `(kpi, score)` from a dict
(`kpi = item.get("kpi") or item.get("name")`), a 3+-tuple (`item[0]`,
`item[2]`), and `(None, None)` otherwise. -/
def extract_score_item (item : Py) : Py × Py :=
  match item with
  | Py.dict kvs => (pyOr (pyGetN kvs "kpi") (pyGetN kvs "name"), pyGetN kvs "score")
  | Py.list xs =>
    if 3 ≤ xs.length then (xs.getD 0 Py.none, xs.getD 2 Py.none)
    else (Py.none, Py.none)
  | _ => (Py.none, Py.none)

/-- One iteration of the KPI-score loop of `generate_swot`: items with a
falsy kpi or a score `float()` rejects are skipped; `score >= 4` appends a
Strength, `elif score <= 2` a Weakness. -/
def swotScoreStep (acc : List String × List String) (item : Py) :
    List String × List String :=
  let ks := extract_score_item item
  if ¬ pyTruthy ks.1 then acc
  else
    match pyFloat ks.2 with
    | Option.none => acc
    | some s =>
      if 4 ≤ s then (acc.1 ++ ["Strong performance in " ++ pyStr ks.1], acc.2)
      else if s ≤ 2 then (acc.1, acc.2 ++ ["Weak performance in " ++ pyStr ks.1])
      else acc

/-- The KPI-score loop of `generate_swot`: builds `(strengths, weaknesses)`. -/
def swotScorePass (scores : List Py) : List String × List String :=
  scores.foldl swotScoreStep ([], [])

/-- One iteration of the benchmark loop of `generate_swot`: reads each
row's `kpi` and `gap` keys; rows whose `gap` fails `float()` are skipped;
`gap > 0` appends an Opportunity, `elif gap < 0` a Threat. -/
def swotBenchStep (acc : List String × List String)
    (row : List (String × Py)) : List String × List String :=
  let kpi := pyGetN row "kpi"
  let gap := pyGetN row "gap"
  match pyFloat gap with
  | Option.none => acc
  | some g =>
    if 0 < g then
      (acc.1 ++ ["Opportunity to improve " ++ pyStr kpi ++ " versus industry"], acc.2)
    else if g < 0 then (acc.1, acc.2 ++ ["Underperformance risk in " ++ pyStr kpi])
    else acc

/-- The benchmark loop of `generate_swot`: builds
`(opportunities, threats)`. -/
def swotBenchPass (benchmarks : List (List (String × Py))) :
    List String × List String :=
  benchmarks.foldl swotBenchStep ([], [])

/-- `core.swot_engine.generate_swot` (the `if benchmarks:` guard is
equivalent to folding over the possibly-empty row list). -/
def generate_swot (scores : List Py) (benchmarks : List (List (String × Py))) :
    Swot :=
  let sw := swotScorePass scores
  let ot := swotBenchPass benchmarks
  ⟨sw.1, sw.2, ot.1, ot.2⟩

-- ==========================================================
-- core/recommender.py
-- ==========================================================

/-- `core.recommender.generate_recommendations`: one line per Weakness,
then one per Threat, with a single fallback line when none were produced. -/
def generate_recommendations (swot : Swot) : List String :=
  let recs := swot.Weaknesses.foldl
    (fun acc w => acc ++ ["Improve performance on " ++ w]) []
  let recs := swot.Threats.foldl
    (fun acc t => acc ++ ["Mitigate risk related to " ++ t]) recs
  if recs.isEmpty then ["Maintain current performance level"] else recs

-- ==========================================================
-- core/report_engine.py
-- ==========================================================

/-- One row of the `reviews` table as returned by
`db.repository.get_review_by_id`:
`(id, company_name, industry, created_by, created_at)`. -/
structure ReviewRow where
  id : Int
  company_name : String
  industry : String
  created_by : Py
  created_at : String

/-- The `company_info` block of the report payload.  Its `created_at`
holds `review[3]`, which in the source's SELECT order is the
`created_by` column. -/
structure CompanyInfo where
  review_id : Int
  company_name : String
  industry : String
  created_at : Py

/-- The `meta` block of the report payload (`generated_at` is
`datetime.now().isoformat()` in the source, passed in here as `Env.now`). -/
structure Meta where
  generated_at : String
  version : String
  engine : String

/-- The report payload assembled by `generate_report_payload`. -/
structure Payload where
  company_info : CompanyInfo
  kpi_inputs : List (String × ℚ)
  scores : List Py
  pillars : List (String × ℚ)
  bhi : ℚ
  benchmarks : List (List (String × Py))
  swot : Swot
  recommendations : List String
  meta : Meta

/-- The collaborators `generate_report_payload` reaches through imports:
the KPI registry configuration, the benchmark store, the database reads,
and the wall clock. -/
structure Env where
  kpis : List (String × KpiCfg)
  pillar_weights : List (String × ℚ)
  benchmarks_store : Py
  get_review : Int → Option ReviewRow
  get_kpi_inputs : Int → List (String × ℚ)
  now : String

/-- The per-record dict built by the score-normalization loop of
`generate_report_payload` (`compute_scores` results are dicts, so only the
dict branch runs): `{"kpi": get "kpi_id" or get "kpi", "value": get "value"
or get "raw_value", "score": …, "pillar": …}`. -/
def normalizeScoreRec (r : ScoreRec) : Py :=
  let kvs : List (String × Py) :=
    [("kpi_id", Py.str r.kpi_id), ("value", Py.num r.value),
     ("score", Py.num r.score), ("pillar", Py.str r.pillar)]
  Py.dict
    [("kpi", pyOr (pyGetN kvs "kpi_id") (pyGetN kvs "kpi")),
     ("value", pyOr (pyGetN kvs "value") (pyGetN kvs "raw_value")),
     ("score", pyGetN kvs "score"),
     ("pillar", pyGetN kvs "pillar")]

/-- `core.report_engine.generate_report_payload`: raises
`ValueError("Invalid review ID")` when the review does not exist and
`ValueError("No KPI inputs found")` when it has no KPI inputs, modelled as
`Except.error` with the message; otherwise sequences scoring,
benchmarking, SWOT and recommendations into one payload. -/
def generate_report_payload (env : Env) (review_id : Int) :
    Except String Payload :=
  match env.get_review review_id with
  | Option.none => Except.error "Invalid review ID"
  | some review =>
    let inputs := env.get_kpi_inputs review_id
    if inputs.isEmpty then Except.error "No KPI inputs found"
    else
      let csr := compute_scores env.kpis env.pillar_weights inputs
      let normalized := csr.1.map normalizeScoreRec
      let benchmarks := compare_to_benchmark env.benchmarks_store
        (Py.list normalized) review.industry
      let swot := generate_swot normalized benchmarks
      Except.ok
        { company_info :=
            ⟨review.id, review.company_name, review.industry, review.created_by⟩
          kpi_inputs := inputs
          scores := normalized
          pillars := csr.2.1
          bhi := round2 csr.2.2
          benchmarks := benchmarks
          swot := swot
          recommendations := generate_recommendations swot
          meta := ⟨env.now, "2.0", "Chumcred StratIQ"⟩ }

/-- Derived characterization: the row case A of `compare_to_benchmark`
emits for one score-map entry, if any. -/
def caseARow (bkvs : List (String × Py)) (kv : String × ℚ) :
    Option (List (String × Py)) :=
  (findCI bkvs kv.1).map (fun refObj => mkRow kv.1 kv.2 (getRef refObj))

/-- Derived characterization: the row case B of `compare_to_benchmark`
emits for one benchmark row, if any. -/
def caseBRow (scoreMap : List (String × ℚ)) (row : Py) :
    Option (List (String × Py)) :=
  match row with
  | Py.dict kvs =>
    let kpiId := pyOr (pyOr (pyGetN kvs "kpi_id") (pyGetN kvs "kpi"))
      (pyGetN kvs "id")
    if ¬ pyTruthy kpiId then Option.none
    else
      match (scoreMap.find? (fun e => e.1 == pyStr kpiId)).map (·.2) with
      | Option.none => Option.none
      | some yourVal => some (mkRow (pyStr kpiId) yourVal (getRef (Py.dict kvs)))
  | _ => Option.none

/-- Derived characterization: the Strength line one score item yields,
if any. -/
def strengthOf (item : Py) : Option String :=
  let ks := extract_score_item item
  if ¬ pyTruthy ks.1 then Option.none
  else
    match pyFloat ks.2 with
    | Option.none => Option.none
    | some s =>
      if 4 ≤ s then some ("Strong performance in " ++ pyStr ks.1)
      else Option.none

/-- Derived characterization: the Weakness line one score item yields,
if any. -/
def weaknessOf (item : Py) : Option String :=
  let ks := extract_score_item item
  if ¬ pyTruthy ks.1 then Option.none
  else
    match pyFloat ks.2 with
    | Option.none => Option.none
    | some s =>
      if 4 ≤ s then Option.none
      else if s ≤ 2 then some ("Weak performance in " ++ pyStr ks.1)
      else Option.none

-- ==========================================================
-- Concrete configurations used in witnesses and counterexamples
-- ==========================================================

/-- A dict-shaped benchmark store with one industry key `Telecom` whose
reference has a `BHI` median of 3.0 (Scenario C's reference data). -/
def benchStoreTelecom : Py := Py.dict [("Telecom", Py.dict [("BHI", Py.num 3)])]

/-- A company's scored values: `BHI = 3.4`. -/
def scoresBHI : Py := Py.dict [("BHI", Py.num (17/5))]

/-- A benchmark store whose `telecom` reference lists `A_KPI` before
`B_KPI`. -/
def benchStoreAB : Py :=
  Py.dict [("telecom", Py.dict [("A_KPI", Py.num 2), ("B_KPI", Py.num 1)])]

/-- Scored values reported with `B_KPI` before `A_KPI`. -/
def scoresBA : Py := Py.dict [("B_KPI", Py.num 5), ("A_KPI", Py.num 7)]

/-- A single-KPI definition table: `K1` in pillar `FINANCIAL`, every value
scoring 5. -/
def kpisK1 : List (String × KpiCfg) :=
  [("K1", ⟨"FINANCIAL", [⟨Option.none, Option.none, 5⟩]⟩)]

/-- Scenario A's rule set for `FIN_MARGIN`. -/
def rulesFinMargin : List Rule :=
  [⟨Option.none, some 0, 1⟩, ⟨some 0, some 10, 2⟩,
   ⟨some 10, some 20, 3⟩, ⟨some 20, Option.none, 5⟩]

/-- A two-KPI definition table whose pillars average to
FINANCIAL 4.0 and CUSTOMER 2.0 on zero inputs (Scenario B). -/
def kpisTwoPillars : List (String × KpiCfg) :=
  [("FIN_MARGIN", ⟨"FINANCIAL", [⟨Option.none, Option.none, 4⟩]⟩),
   ("CUS_SAT", ⟨"CUSTOMER", [⟨Option.none, Option.none, 2⟩]⟩)]

/-- Scenario B's pillar weights. -/
def weightsHalf : List (String × ℚ) := [("FINANCIAL", 1/2), ("CUSTOMER", 1/2)]

/-- Two scored KPI items in the dict shape `generate_swot` accepts:
`X` scored 5, `Y` scored 1. -/
def swotItemsXY : List Py :=
  [Py.dict [("kpi", Py.str "X"), ("score", Py.num 5)],
   Py.dict [("kpi", Py.str "Y"), ("score", Py.num 1)]]

/-- A report environment with exactly one review (id 1) that has no KPI
inputs. -/
def envNoInputs : Env :=
  { kpis := kpisTwoPillars
    pillar_weights := weightsHalf
    benchmarks_store := benchStoreTelecom
    get_review := fun rid =>
      if rid = 1 then some ⟨1, "Acme", "Telecom", Py.num 7, "2025-01-01"⟩
      else Option.none
    get_kpi_inputs := fun _ => []
    now := "2025-01-02T00:00:00" }

-- ==========================================================
-- Helper lemmas (shared by several claim theorems)
-- ==========================================================

/-- A loop that appends one mapped element per item is `map`. -/
theorem foldl_snoc_map {α β : Type} (f : α → β) :
    ∀ (l : List α) (acc : List β),
      l.foldl (fun a x => a ++ [f x]) acc = acc ++ l.map f := by
  intro l
  induction l with
  | nil => intro acc; simp
  | cons x xs ih => intro acc; simp [ih]

/-- A loop that adds one mapped number per item is a sum. -/
theorem foldl_add_sum {α : Type} (f : α → ℚ) :
    ∀ (l : List α) (acc : ℚ),
      l.foldl (fun a x => a + f x) acc = acc + (l.map f).sum := by
  intro l
  induction l with
  | nil => intro acc; simp
  | cons x xs ih => intro acc; simp [ih]; ring

/-- A loop that appends at most one element per item is `filterMap`. -/
theorem foldl_optSnoc {α β : Type} (step : List β → α → List β)
    (g : α → Option β)
    (hstep : ∀ acc x, step acc x = acc ++ (g x).toList) :
    ∀ (l : List α) (acc : List β),
      l.foldl step acc = acc ++ l.filterMap g := by
  intro l
  induction l with
  | nil => intro acc; simp
  | cons x xs ih =>
    intro acc
    rw [List.foldl_cons, hstep, ih]
    cases h : g x <;> simp [h, List.filterMap_cons]

/-- Pair version of `foldl_optSnoc`: a loop appending at most one element
per item to each of two accumulators is a pair of `filterMap`s. -/
theorem foldl_optSnoc2 {α β : Type} (step : List β × List β → α → List β × List β)
    (g h : α → Option β)
    (hstep : ∀ acc x, step acc x = (acc.1 ++ (g x).toList, acc.2 ++ (h x).toList)) :
    ∀ (l : List α) (acc : List β × List β),
      l.foldl step acc = (acc.1 ++ l.filterMap g, acc.2 ++ l.filterMap h) := by
  intro l
  induction l with
  | nil => intro acc; simp
  | cons x xs ih =>
    intro acc
    rw [List.foldl_cons, hstep, ih]
    cases hg : g x <;> cases hh : h x <;>
      simp [hg, hh, List.filterMap_cons]

theorem caseAStep_eq (bkvs : List (String × Py))
    (acc : List (List (String × Py))) (kv : String × ℚ) :
    caseAStep bkvs acc kv = acc ++ (caseARow bkvs kv).toList := by
  cases h : findCI bkvs kv.1 <;> simp [caseAStep, caseARow, h]

theorem caseBStep_eq (scoreMap : List (String × ℚ))
    (acc : List (List (String × Py))) (row : Py) :
    caseBStep scoreMap acc row = acc ++ (caseBRow scoreMap row).toList := by
  cases row with
  | dict kvs =>
    simp only [caseBStep, caseBRow]
    by_cases ht :
      pyTruthy (pyOr (pyOr (pyGetN kvs "kpi_id") (pyGetN kvs "kpi")) (pyGetN kvs "id"))
    · simp only [ht, not_true_eq_false, if_false]
      cases h : (scoreMap.find? (fun e =>
          e.1 == pyStr (pyOr (pyOr (pyGetN kvs "kpi_id") (pyGetN kvs "kpi"))
            (pyGetN kvs "id")))).map (·.2) <;> simp [h]
    · simp [ht]
  | none => simp [caseBStep, caseBRow]
  | num q => simp [caseBStep, caseBRow]
  | str s => simp [caseBStep, caseBRow]
  | list xs => simp [caseBStep, caseBRow]

/-- Every row `compare_to_benchmark` returns is an `mkRow`. -/
theorem compare_rows_shape (B S : Py) (industry : String)
    (row : List (String × Py))
    (hmem : row ∈ compare_to_benchmark B S industry) :
    ∃ k v ref, row = mkRow k v ref := by
  unfold compare_to_benchmark at hmem
  cases hres : resolveBench B industry with
  | none => rw [hres] at hmem; simp at hmem
  | some bench =>
    rw [hres] at hmem
    by_cases ht : pyTruthy bench
    · simp only [ht, not_true_eq_false, if_false] at hmem
      cases bench with
      | dict bkvs =>
        dsimp only at hmem
        rw [foldl_optSnoc (caseAStep bkvs) (caseARow bkvs)
          (caseAStep_eq bkvs)] at hmem
        simp only [List.nil_append, List.mem_filterMap] at hmem
        obtain ⟨kv, _, hsome⟩ := hmem
        rcases Option.map_eq_some'.mp hsome with ⟨refObj, _, hrow⟩
        exact ⟨kv.1, kv.2, getRef refObj, hrow.symm⟩
      | list rows =>
        dsimp only at hmem
        rw [foldl_optSnoc (caseBStep (scoreMapOf S)) (caseBRow (scoreMapOf S))
          (caseBStep_eq (scoreMapOf S))] at hmem
        simp only [List.nil_append, List.mem_filterMap] at hmem
        obtain ⟨r, _, hsome⟩ := hmem
        cases r with
        | dict kvs =>
          simp only [caseBRow] at hsome
          by_cases htr :
            pyTruthy (pyOr (pyOr (pyGetN kvs "kpi_id") (pyGetN kvs "kpi")) (pyGetN kvs "id"))
          · simp only [htr, not_true_eq_false, if_false] at hsome
            cases h : ((scoreMapOf S).find? (fun e =>
                e.1 == pyStr (pyOr (pyOr (pyGetN kvs "kpi_id") (pyGetN kvs "kpi"))
                  (pyGetN kvs "id")))).map (·.2) with
            | none => rw [h] at hsome; cases hsome
            | some yourVal =>
              rw [h] at hsome
              exact ⟨_, _, _, (Option.some.inj hsome).symm⟩
          · simp [htr] at hsome
        | none => cases hsome
        | num q => cases hsome
        | str s => cases hsome
        | list xs => cases hsome
      | none => simp at hmem
      | num q => simp at hmem
      | str s => simp at hmem
    · simp [ht] at hmem

theorem mkRow_status (k : String) (v : ℚ) (ref : Ref) :
    rowGet (mkRow k v ref) "status" = Option.none := rfl

theorem mkRow_gap_key (k : String) (v : ℚ) (ref : Ref) :
    pyGetN (mkRow k v ref) "gap" = Py.none := rfl

theorem mkRow_kpi_key (k : String) (v : ℚ) (ref : Ref) :
    pyGetN (mkRow k v ref) "kpi" = Py.none := rfl

theorem mkRow_your_value (k : String) (v : ℚ) (ref : Ref) :
    rowGet (mkRow k v ref) "your_value" = some (Py.num (round2 v)) := rfl

theorem mkRow_median (k : String) (v : ℚ) (ref : Ref) :
    rowGet (mkRow k v ref) "benchmark_median"
      = some (Py.num (round2 ref.median)) := rfl

theorem mkRow_gap_vs_median (k : String) (v : ℚ) (ref : Ref) :
    rowGet (mkRow k v ref) "gap_vs_median"
      = some (Py.num (round2 (v - ref.median))) := rfl

theorem swotScoreStep_eq (acc : List String × List String) (item : Py) :
    swotScoreStep acc item
      = (acc.1 ++ (strengthOf item).toList, acc.2 ++ (weaknessOf item).toList) := by
  simp only [swotScoreStep, strengthOf, weaknessOf]
  by_cases ht : pyTruthy (extract_score_item item).1
  · simp only [ht, not_true_eq_false, if_false]
    cases hf : pyFloat (extract_score_item item).2 with
    | none => simp
    | some s =>
      by_cases h4 : 4 ≤ s
      · simp [h4]
      · by_cases h2 : s ≤ 2 <;> simp [h4, h2]
  · simp [ht]

theorem swotScorePass_eq (scores : List Py) :
    swotScorePass scores
      = (scores.filterMap strengthOf, scores.filterMap weaknessOf) := by
  unfold swotScorePass
  rw [foldl_optSnoc2 swotScoreStep strengthOf weaknessOf swotScoreStep_eq]
  simp

/-- The benchmark loop of `generate_swot` leaves the accumulator untouched
when every row's `gap` value fails `float()`. -/
theorem swotBench_skip :
    ∀ (rows : List (List (String × Py))) (acc : List String × List String),
      (∀ row ∈ rows, pyFloat (pyGetN row "gap") = Option.none) →
      rows.foldl swotBenchStep acc = acc := by
  intro rows
  induction rows with
  | nil => intro acc _; simp
  | cons row tl ih =>
    intro acc hall
    rw [List.foldl_cons]
    have h1 : pyFloat (pyGetN row "gap") = Option.none := hall row (by simp)
    have hstep : swotBenchStep acc row = acc := by
      simp [swotBenchStep, h1]
    rw [hstep]
    exact ih acc (fun r hr => hall r (by simp [hr]))

/-- Every result record of `compute_scores` stems from an entry of the
`kpi_inputs` dict (the loop runs over `kpi_inputs.items()` only). -/
theorem scores_fold_mem (kpis : List (String × KpiCfg)) :
    ∀ (inputs : List (String × ℚ)) (st : ScoresState) (r : ScoreRec),
      r ∈ (inputs.foldl (scoresStep kpis) st).results →
      r ∈ st.results ∨ r.kpi_id ∈ inputs.map Prod.fst := by
  intro inputs
  induction inputs with
  | nil => intro st r h; exact Or.inl h
  | cons kv tl ih =>
    intro st r h
    rw [List.foldl_cons] at h
    rcases ih (scoresStep kpis st kv) r h with h1 | h2
    · unfold scoresStep at h1
      cases hc : (kpis.find? (fun e => e.1 == kv.1)).map (·.2) with
      | none => rw [hc] at h1; exact Or.inl h1
      | some cfg =>
        rw [hc] at h1
        simp only [List.mem_append, List.mem_singleton] at h1
        rcases h1 with h1a | h1b
        · exact Or.inl h1a
        · subst h1b
          exact Or.inr (by simp)
    · exact Or.inr (by simp [h2])

/-- `_resolve_benchmarks_for_industry` only sees the industry through
`_norm`. -/
theorem resolveBench_norm (B : Py) (i1 i2 : String)
    (h : normStr i1 = normStr i2) :
    resolveBench B i1 = resolveBench B i2 := by
  cases B with
  | dict kvs => simp only [resolveBench]; rw [h]
  | list xs => simp only [resolveBench]; rw [h]
  | none => rfl
  | num q => rfl
  | str s => rfl

-- ==========================================================
-- Claim theorems
-- ==========================================================

/-- C1: for every raw value and ordered rule list, `score_value` returns
the score of the first rule in declared order whose nullable `min`/`max`
bounds both admit the value, and 0 when no rule matches; in particular
Scenario A's `FIN_MARGIN` rules score the value 15 as 3. -/
theorem scoring_C1 :
    (∀ (value : ℚ) (rules : List Rule),
      score_value value rules
        = ((rules.find? (ruleMatches value)).map Rule.score).getD 0)
  ∧ score_value 15 rulesFinMargin = 3 := by
  constructor
  · intro value rules
    induction rules with
    | nil => simp [score_value]
    | cons r rs ih =>
      cases h : ruleMatches value r <;>
        simp [score_value, List.find?_cons, h, ih]
  · rfl

/-- C2: the Business Health Index returned by `compute_scores` is the sum,
over the returned pillar averages, of average × registered pillar weight
(with weight 0 for pillars absent from `pillar_weights`), rounded to 2
decimals; in particular Scenario B's averages {FINANCIAL:4.0, CUSTOMER:2.0}
under weights {FINANCIAL:0.5, CUSTOMER:0.5} give BHI 3.0. -/
theorem scoring_C2 :
    (∀ (kpis : List (String × KpiCfg)) (weights inputs : List (String × ℚ)),
      (compute_scores kpis weights inputs).2.2
        = round2 ((((compute_scores kpis weights inputs).2.1).map
            (fun pa => pa.2 * alistGetD weights pa.1 0)).sum))
  ∧ (compute_scores kpisTwoPillars weightsHalf
      [("FIN_MARGIN", 0), ("CUS_SAT", 0)]).2.1
      = [("FINANCIAL", 4), ("CUSTOMER", 2)]
  ∧ (compute_scores kpisTwoPillars weightsHalf
      [("FIN_MARGIN", 0), ("CUS_SAT", 0)]).2.2 = 3 := by
  refine ⟨?_, by decide, by decide⟩
  intro kpis weights inputs
  simp only [compute_scores]
  rw [foldl_add_sum (fun pa : String × ℚ => pa.2 * alistGetD weights pa.1 0)]
  rw [zero_add]

/-- C7: the recommendations are exactly one line per Weakness followed by
one line per Threat, each source list's order preserved, with the single
fallback line when both lists are empty; hence the count law
`len = len(W) + len(T)` (or 1 when both are empty). -/
theorem recommender_C7 (swot : Swot) :
    (generate_recommendations swot
      = (if swot.Weaknesses = [] ∧ swot.Threats = []
         then ["Maintain current performance level"]
         else swot.Weaknesses.map (fun w => "Improve performance on " ++ w)
           ++ swot.Threats.map (fun t => "Mitigate risk related to " ++ t)))
  ∧ (generate_recommendations swot).length
      = (if swot.Weaknesses = [] ∧ swot.Threats = []
         then 1
         else swot.Weaknesses.length + swot.Threats.length) := by
  have hrec : generate_recommendations swot
      = (if swot.Weaknesses = [] ∧ swot.Threats = []
         then ["Maintain current performance level"]
         else swot.Weaknesses.map (fun w => "Improve performance on " ++ w)
           ++ swot.Threats.map (fun t => "Mitigate risk related to " ++ t)) := by
    unfold generate_recommendations
    simp only [foldl_snoc_map (fun w => "Improve performance on " ++ w),
      foldl_snoc_map (fun t => "Mitigate risk related to " ++ t),
      List.nil_append]
    by_cases hW : swot.Weaknesses = [] <;> by_cases hT : swot.Threats = [] <;>
      simp [hW, hT]
  refine ⟨hrec, ?_⟩
  rw [hrec]
  by_cases hW : swot.Weaknesses = [] <;> by_cases hT : swot.Threats = [] <;>
    simp [hW, hT]

/-- C4 counterexample: with the definition table containing `K1` and an
empty inputs dict, `compute_scores` returns no result record at all —
`K1` is omitted rather than scored with a defaulted raw value of 0.0, and
its pillar receives no average. -/
theorem scoring_C4_counterexample :
    compute_scores kpisK1 [("FINANCIAL", 1)] [] = ([], [], 0)
  ∧ ¬ ("K1" ∈ (compute_scores kpisK1 [("FINANCIAL", 1)] []).1.map ScoreRec.kpi_id)
  ∧ ("K1", (⟨"FINANCIAL", [⟨Option.none, Option.none, 5⟩]⟩ : KpiCfg)) ∈ kpisK1 := by
  refine ⟨by decide, by decide, by decide⟩

/-- C4 amended: `compute_scores` iterates only over the inputs dict, so a
KPI id present in the loaded definitions but absent from the inputs is not
scored at all: every result record's kpi_id is one of the input keys. -/
theorem scoring_C4_amended (kpis : List (String × KpiCfg))
    (weights inputs : List (String × ℚ)) (r : ScoreRec)
    (hmem : r ∈ (compute_scores kpis weights inputs).1) :
    r.kpi_id ∈ inputs.map Prod.fst := by
  unfold compute_scores at hmem
  dsimp only at hmem
  rcases scores_fold_mem kpis inputs ⟨[], [], []⟩ r hmem with h | h
  · cases h
  · exact h

theorem scoring_C4_amended_witness :
    ("K1" : String) ∈ ([("K1", (2 : ℚ))].map Prod.fst) :=
  scoring_C4_amended kpisK1 [("FINANCIAL", 1)] [("K1", 2)]
    ⟨"K1", 2, 5, "FINANCIAL"⟩ (by decide)

/-- C5 counterexample: the comparator has no alias table.  With a store
holding only the key `Telecom`, the industry `telco` does not resolve (the
comparison is empty) although `telecom` itself resolves to one row — so
`"telco"` is not mapped to `"telecom"` as the claim's Scenario C requires. -/
theorem benchmarking_C5_counterexample :
    compare_to_benchmark benchStoreTelecom scoresBHI "telco" = []
  ∧ (compare_to_benchmark benchStoreTelecom scoresBHI "telecom").length = 1 :=
  ⟨rfl, rfl⟩

/-- C5 amended: the comparator normalizes the industry by trimming and
lowercasing only (it depends on the industry string solely through that
normalization, giving case-insensitive store lookup), and an industry that
resolves to no benchmark entry yields the empty list rather than an
error; there is no alias resolution step. -/
theorem benchmarking_C5_amended :
    (∀ (B S : Py) (i1 i2 : String), normStr i1 = normStr i2 →
      compare_to_benchmark B S i1 = compare_to_benchmark B S i2)
  ∧ (∀ (B S : Py) (i : String), resolveBench B i = Option.none →
      compare_to_benchmark B S i = []) := by
  constructor
  · intro B S i1 i2 h
    unfold compare_to_benchmark
    rw [resolveBench_norm B i1 i2 h]
  · intro B S i h
    unfold compare_to_benchmark
    rw [h]

theorem benchmarking_C5_witness :
    compare_to_benchmark benchStoreTelecom scoresBHI " TELECOM "
      = compare_to_benchmark benchStoreTelecom scoresBHI "telecom"
  ∧ compare_to_benchmark benchStoreTelecom scoresBHI "retail" = [] :=
  ⟨benchmarking_C5_amended.1 benchStoreTelecom scoresBHI " TELECOM " "telecom"
      (by decide),
   benchmarking_C5_amended.2 benchStoreTelecom scoresBHI "retail" rfl⟩

/-- C3 counterexample: the row the comparator produces for Scenario C's
data carries its difference under the key `gap_vs_median` (here 0.4 > 0),
has no `gap` key, and has no `status` key at all — so no row satisfies
`status = "Above" iff gap > 0` as the claim states it. -/
theorem benchmarking_C3_counterexample :
    compare_to_benchmark benchStoreTelecom scoresBHI "telecom"
      = [mkRow "BHI" (17/5) ⟨3, Option.none, Option.none⟩]
  ∧ rowGet (mkRow "BHI" (17/5) ⟨3, Option.none, Option.none⟩) "gap_vs_median"
      = some (Py.num (2/5))
  ∧ (0 : ℚ) < 2/5
  ∧ rowGet (mkRow "BHI" (17/5) ⟨3, Option.none, Option.none⟩) "gap" = Option.none
  ∧ rowGet (mkRow "BHI" (17/5) ⟨3, Option.none, Option.none⟩) "status" = Option.none :=
  ⟨rfl, rfl, by decide, rfl, rfl⟩

/-- C3 amended: every row produced by the Benchmark Comparator carries
`gap_vs_median = round(value − median, 2)` (together with the rounded
value and median it was computed from) and carries no `status` field;
Above/At/Below is not materialized on the row. -/
theorem benchmarking_C3_amended (B S : Py) (industry : String)
    (row : List (String × Py))
    (hmem : row ∈ compare_to_benchmark B S industry) :
    rowGet row "status" = Option.none
  ∧ ∃ v m : ℚ,
      rowGet row "your_value" = some (Py.num (round2 v))
      ∧ rowGet row "benchmark_median" = some (Py.num (round2 m))
      ∧ rowGet row "gap_vs_median" = some (Py.num (round2 (v - m))) := by
  obtain ⟨k, v, ref, rfl⟩ := compare_rows_shape B S industry row hmem
  exact ⟨mkRow_status k v ref,
    v, ref.median, mkRow_your_value k v ref, mkRow_median k v ref,
    mkRow_gap_vs_median k v ref⟩

theorem benchmarking_C3_witness :
    rowGet (mkRow "BHI" (17/5) ⟨3, Option.none, Option.none⟩) "status"
      = Option.none
  ∧ ∃ v m : ℚ,
      rowGet (mkRow "BHI" (17/5) ⟨3, Option.none, Option.none⟩) "your_value"
        = some (Py.num (round2 v))
      ∧ rowGet (mkRow "BHI" (17/5) ⟨3, Option.none, Option.none⟩) "benchmark_median"
        = some (Py.num (round2 m))
      ∧ rowGet (mkRow "BHI" (17/5) ⟨3, Option.none, Option.none⟩) "gap_vs_median"
        = some (Py.num (round2 (v - m))) :=
  benchmarking_C3_amended benchStoreTelecom scoresBHI "telecom"
    (mkRow "BHI" (17/5) ⟨3, Option.none, Option.none⟩)
    (by rw [show compare_to_benchmark benchStoreTelecom scoresBHI "telecom"
        = [mkRow "BHI" (17/5) ⟨3, Option.none, Option.none⟩] from rfl]
        exact List.mem_singleton_self _)

/-- C9 counterexample: with a dict-shaped store, rows come out in the
order of the company's score map, not sorted by kpi_id: the store lists
`A_KPI` before `B_KPI`, the scores list `B_KPI` first, and the output rows
are `[B_KPI, A_KPI]` — not sorted ascending by kpi_id. -/
theorem benchmarking_C9_counterexample :
    (compare_to_benchmark benchStoreAB scoresBA "telecom").map
        (fun row => rowGet row "kpi_id")
      = [some (Py.str "B_KPI"), some (Py.str "A_KPI")]
  ∧ ¬ List.Sorted (fun a b : String => a ≤ b) ["B_KPI", "A_KPI"] := by
  refine ⟨rfl, ?_⟩
  intro hs
  have hle : ("B_KPI" : String) ≤ "A_KPI" :=
    (List.sorted_cons.mp hs).1 _ (by simp)
  have hlt : ("A_KPI" : String) < "B_KPI" := by
    rw [String.lt_iff_toList_lt]
    exact List.Lex.rel (by decide)
  exact absurd (lt_of_lt_of_le hlt hle) (lt_irrefl _)

/-- C9 amended: for a dict-shaped benchmark reference the comparator
returns exactly one row per score-map entry possessing a case-insensitive
benchmark key, in score-map (input) order; the ordering is deterministic
given the inputs but the rows are not sorted by kpi_id. -/
theorem benchmarking_C9_amended (B S : Py) (industry : String)
    (bkvs : List (String × Py))
    (hres : resolveBench B industry = some (Py.dict bkvs)) :
    compare_to_benchmark B S industry
      = (scoreMapOf S).filterMap (caseARow bkvs) := by
  unfold compare_to_benchmark
  rw [hres]
  by_cases ht : pyTruthy (Py.dict bkvs)
  · simp only [ht, not_true_eq_false, if_false]
    rw [foldl_optSnoc (caseAStep bkvs) (caseARow bkvs) (caseAStep_eq bkvs)]
    simp
  · have hkvs : bkvs = [] := by
      cases bkvs with
      | nil => rfl
      | cons a l => simp [pyTruthy] at ht
    subst hkvs
    have hnone : ∀ kv ∈ scoreMapOf S,
        caseARow ([] : List (String × Py)) kv = Option.none := fun kv _ => rfl
    simp only [show pyTruthy (Py.dict ([] : List (String × Py))) = false from rfl,
      Bool.false_eq_true, not_false_eq_true, if_true]
    exact (List.filterMap_eq_nil_iff.mpr hnone).symm

theorem benchmarking_C9_witness :
    compare_to_benchmark benchStoreAB scoresBA "telecom"
      = (scoreMapOf scoresBA).filterMap
          (caseARow [("A_KPI", Py.num 2), ("B_KPI", Py.num 1)]) :=
  benchmarking_C9_amended benchStoreAB scoresBA "telecom"
    [("A_KPI", Py.num 2), ("B_KPI", Py.num 1)] rfl

/-- C6: `generate_report_payload` fails with the `Invalid review ID` error
when no review with the given id exists, and with the distinct
`No KPI inputs found` error when the review exists but has no KPI inputs;
in both cases an error is surfaced to the caller and no payload is
produced. -/
theorem report_C6 (env : Env) (rid : Int) :
    (env.get_review rid = Option.none →
      generate_report_payload env rid = Except.error "Invalid review ID")
  ∧ (∀ r, env.get_review rid = some r → env.get_kpi_inputs rid = [] →
      generate_report_payload env rid = Except.error "No KPI inputs found")
  ∧ ("Invalid review ID" : String) ≠ "No KPI inputs found" := by
  refine ⟨?_, ?_, by decide⟩
  · intro h
    unfold generate_report_payload
    rw [h]
  · intro r h hi
    unfold generate_report_payload
    rw [h, hi]
    rfl

theorem report_C6_witness :
    generate_report_payload envNoInputs 2 = Except.error "Invalid review ID"
  ∧ generate_report_payload envNoInputs 1 = Except.error "No KPI inputs found" :=
  ⟨(report_C6 envNoInputs 2).1 rfl,
   (report_C6 envNoInputs 1).2.1 ⟨1, "Acme", "Telecom", Py.num 7, "2025-01-01"⟩
     rfl rfl⟩

/-- C8: every scored KPI (truthy kpi string, numeric score) with
score ≥ 4 contributes its `Strong performance in {kpi}` line and with
score ≤ 2 its `Weak performance in {kpi}` line, against the fixed
thresholds 4 and 2; conversely every line in either bucket stems from a
scored KPI meeting the respective threshold, so a KPI with 2 < score < 4
appears in neither bucket. -/
theorem swot_C8 (scores : List Py) (benchmarks : List (List (String × Py))) :
    (∀ item ∈ scores, ∀ (k : String) (q : ℚ),
      extract_score_item item = (Py.str k, Py.num q) → k ≠ "" → 4 ≤ q →
      ("Strong performance in " ++ k)
        ∈ (generate_swot scores benchmarks).Strengths)
  ∧ (∀ item ∈ scores, ∀ (k : String) (q : ℚ),
      extract_score_item item = (Py.str k, Py.num q) → k ≠ "" → q ≤ 2 →
      ("Weak performance in " ++ k)
        ∈ (generate_swot scores benchmarks).Weaknesses)
  ∧ (∀ s ∈ (generate_swot scores benchmarks).Strengths,
      ∃ item ∈ scores, ∃ q : ℚ,
        pyTruthy (extract_score_item item).1 = true
        ∧ pyFloat (extract_score_item item).2 = some q ∧ 4 ≤ q
        ∧ s = "Strong performance in " ++ pyStr (extract_score_item item).1)
  ∧ (∀ s ∈ (generate_swot scores benchmarks).Weaknesses,
      ∃ item ∈ scores, ∃ q : ℚ,
        pyTruthy (extract_score_item item).1 = true
        ∧ pyFloat (extract_score_item item).2 = some q ∧ q ≤ 2 ∧ ¬ 4 ≤ q
        ∧ s = "Weak performance in " ++ pyStr (extract_score_item item).1) := by
  have hS : (generate_swot scores benchmarks).Strengths
      = scores.filterMap strengthOf := by
    simp [generate_swot, swotScorePass_eq]
  have hW : (generate_swot scores benchmarks).Weaknesses
      = scores.filterMap weaknessOf := by
    simp [generate_swot, swotScorePass_eq]
  refine ⟨?_, ?_, ?_, ?_⟩
  · intro item hitem k q hex hk h4
    rw [hS]
    refine List.mem_filterMap.mpr ⟨item, hitem, ?_⟩
    simp [strengthOf, hex, pyTruthy, pyFloat, pyStr, hk, h4]
  · intro item hitem k q hex hk h2
    have h4 : ¬ (4 : ℚ) ≤ q := by intro hc; linarith
    rw [hW]
    refine List.mem_filterMap.mpr ⟨item, hitem, ?_⟩
    simp [weaknessOf, hex, pyTruthy, pyFloat, pyStr, hk, h2, h4]
  · intro s hs
    rw [hS] at hs
    obtain ⟨item, hitem, hsome⟩ := List.mem_filterMap.mp hs
    by_cases ht : pyTruthy (extract_score_item item).1
    · cases hf : pyFloat (extract_score_item item).2 with
      | none => simp [strengthOf, ht, hf] at hsome
      | some q =>
        by_cases h4 : (4 : ℚ) ≤ q
        · refine ⟨item, hitem, q, ht, hf, h4, ?_⟩
          simp [strengthOf, ht, hf, h4] at hsome
          exact hsome.symm
        · simp [strengthOf, ht, hf, h4] at hsome
    · simp [strengthOf, ht] at hsome
  · intro s hs
    rw [hW] at hs
    obtain ⟨item, hitem, hsome⟩ := List.mem_filterMap.mp hs
    by_cases ht : pyTruthy (extract_score_item item).1
    · cases hf : pyFloat (extract_score_item item).2 with
      | none => simp [weaknessOf, ht, hf] at hsome
      | some q =>
        by_cases h4 : (4 : ℚ) ≤ q
        · simp [weaknessOf, ht, hf, h4] at hsome
        · by_cases h2 : q ≤ 2
          · refine ⟨item, hitem, q, ht, hf, h2, h4, ?_⟩
            simp [weaknessOf, ht, hf, h4, h2] at hsome
            exact hsome.symm
          · simp [weaknessOf, ht, hf, h4, h2] at hsome
    · simp [weaknessOf, ht] at hsome

theorem swot_C8_witness :
    ("Strong performance in X") ∈ (generate_swot swotItemsXY []).Strengths
  ∧ ("Weak performance in Y") ∈ (generate_swot swotItemsXY []).Weaknesses :=
  ⟨(swot_C8 swotItemsXY []).1
      (Py.dict [("kpi", Py.str "X"), ("score", Py.num 5)])
      (by simp [swotItemsXY]) "X" 5 rfl (by decide) (by decide),
   (swot_C8 swotItemsXY []).2.1
      (Py.dict [("kpi", Py.str "Y"), ("score", Py.num 1)])
      (by simp [swotItemsXY]) "Y" 1 rfl (by decide) (by decide)⟩

/-- C10: in the composed pipeline the benchmark-derived SWOT buckets are
never populated: `compare_to_benchmark` rows carry the keys `kpi_id` and
`gap_vs_median`, while `generate_swot` reads `kpi` and `gap` and skips
every row whose `gap` is missing or non-numeric — so Opportunities and
Threats are always empty for benchmark rows coming from the comparator,
whatever the stores, scores and industry. -/
theorem pipeline_C10 (B S : Py) (industry : String) (scores : List Py) :
    (generate_swot scores (compare_to_benchmark B S industry)).Opportunities = []
  ∧ (generate_swot scores (compare_to_benchmark B S industry)).Threats = [] := by
  have hall : ∀ row ∈ compare_to_benchmark B S industry,
      pyFloat (pyGetN row "gap") = Option.none := by
    intro row hr
    obtain ⟨k, v, ref, rfl⟩ := compare_rows_shape B S industry row hr
    rw [mkRow_gap_key]
    rfl
  have hbp : swotBenchPass (compare_to_benchmark B S industry) = ([], []) :=
    swotBench_skip _ ([], []) hall
  constructor <;> simp [generate_swot, hbp]
